import Mathlib

/-!
Verification of the PDF output formats of `mangadex_downloader/format/pdf.py`.

The development shallowly embeds the slices of the source that the properties
below are about:

* the per-frame filter / color-space / bits dispatch inside `PDFPlugin._save`
  (lines 209-239) and the convert-to-RGB step right before it (lines 186-194);
* the truncated-image recovery `PDFPlugin.check_truncated` (lines 78-99) and
  the per-image portion of `PDFPlugin._save` that resets the relaxed-decode
  flag (lines 177-178 and 310-312);
* the page geometry emitted by `_save` (MediaBox and the contents `cm`
  program, lines 279-302) together with the pre-allocation of the
  (image, page, contents) object-id triples (lines 148-175);
* the chapter / single / volume pipelines `PDF.main`, `PDFSingle.main`,
  `PDFVolume.main` and `PDF.convert` as event-emitting functions.

Machine integers do not overflow on these paths; Python ints are modelled by
`Nat`, the float arithmetic `width * 72.0 / resolution` by exact `ℚ`
arithmetic.
-/

namespace PdfFmt

/-- Outcome of `img.load()`: success, or an `OSError` carrying its message.
The load behaviour of an image is a function of the process-wide
`ImageFile.LOAD_TRUNCATED_IMAGES` flag, because that flag changes whether a
truncated image loads. -/
inductive LoadResult
  | ok
  | osError (msg : String)
  deriving DecidableEq

/-- A decoded source image as `_save` sees it: its Pillow mode string, its
palette bytes (`im.getpalette()`), its frame count (`n_frames`, 1 for single
frame images), its pixel size, and its load behaviour as a function of the
relaxed-decode flag. -/
structure SrcImage where
  mode : String
  palette : List Nat
  nFrames : Nat
  width : Nat
  height : Nat
  load : Bool → LoadResult

/-- A PDF color space as built at lines 211-235: either a bare name such as
`/DeviceGray`, or the `[ /Indexed /DeviceRGB 255 <palette bytes> ]` array of
the palette branch. -/
inductive ColorSpace
  | name (n : String)
  | indexed (base : String) (hival : Nat) (lookup : List Nat)
  deriving DecidableEq

/-- The data chosen by the mode dispatch at lines 205-239 of `_save`:
stream filter, color space, ProcSet entry, bits per component and the
optional `Decode` array. -/
structure FilterChoice where
  filter : String
  colorspace : ColorSpace
  procset : String
  bits : Nat
  decode : Option (List Nat)
  deriving DecidableEq

/-- Lines 205-239 of `_save`: `bits`/`params`/`decode` default to
8/`None`/`None`, then the chain of `im.mode` tests selects the filter, color
space, ProcSet and overrides; an unknown mode raises
`ValueError(f"cannot save mode {im.mode}")`. -/
def modeDispatch (mode : String) (palette : List Nat) : Except String FilterChoice :=
  if mode = "1" then
    Except.ok ⟨"DCTDecode", ColorSpace.name "DeviceGray", "ImageB", 1, none⟩
  else if mode = "L" then
    Except.ok ⟨"DCTDecode", ColorSpace.name "DeviceGray", "ImageB", 8, none⟩
  else if mode = "P" then
    Except.ok ⟨"ASCIIHexDecode", ColorSpace.indexed "DeviceRGB" 255 palette, "ImageI", 8, none⟩
  else if mode = "RGB" then
    Except.ok ⟨"DCTDecode", ColorSpace.name "DeviceRGB", "ImageC", 8, none⟩
  else if mode = "CMYK" then
    Except.ok ⟨"DCTDecode", ColorSpace.name "DeviceCMYK", "ImageC", 8, some [1, 0, 1, 0, 1, 0, 1, 0]⟩
  else
    Except.error ("cannot save mode " ++ mode)

/-- Lines 186-194 of `_save`: `if im.mode != 'RGB': imSequence = im.convert('RGB')`,
otherwise the image is kept as is.  The result is the mode of `imSequence`. -/
def convertedMode (mode : String) : String :=
  if mode ≠ "RGB" then "RGB" else mode

/-- What `_save` actually selects for a frame of an image whose decoded mode
is `sourceMode`: the dispatch is run on the mode after the convert-to-RGB
step. -/
def encodeFrameChoice (sourceMode : String) (palette : List Nat) : Except String FilterChoice :=
  modeDispatch (convertedMode sourceMode) palette

theorem convertedMode_eq_rgb (mode : String) : convertedMode mode = "RGB" := by
  unfold convertedMode
  split
  · rfl
  · simp_all

/-- C1: at the encoding point (lines 209-239 of `_save`), the stream filter,
color space, bits per component and `Decode` array are selected
deterministically from the frame's mode exactly as the §4.3 table states:
Bilevel (`"1"`) gives DCTDecode / DeviceGray / 1 bit, Grayscale (`"L"`) gives
DCTDecode / DeviceGray / 8, Palette (`"P"`) gives ASCIIHexDecode with color
space `[ /Indexed /DeviceRGB 255 <raw palette bytes> ]` / 8, RGB gives
DCTDecode / DeviceRGB / 8, and CMYK gives DCTDecode / DeviceCMYK / 8 with
`Decode` array `[1 0 1 0 1 0 1 0]`. -/
theorem c1_dispatch_table (palette : List Nat) :
    modeDispatch "1" palette =
      Except.ok ⟨"DCTDecode", ColorSpace.name "DeviceGray", "ImageB", 1, none⟩ ∧
    modeDispatch "L" palette =
      Except.ok ⟨"DCTDecode", ColorSpace.name "DeviceGray", "ImageB", 8, none⟩ ∧
    modeDispatch "P" palette =
      Except.ok ⟨"ASCIIHexDecode", ColorSpace.indexed "DeviceRGB" 255 palette, "ImageI", 8, none⟩ ∧
    modeDispatch "RGB" palette =
      Except.ok ⟨"DCTDecode", ColorSpace.name "DeviceRGB", "ImageC", 8, none⟩ ∧
    modeDispatch "CMYK" palette =
      Except.ok ⟨"DCTDecode", ColorSpace.name "DeviceCMYK", "ImageC", 8,
        some [1, 0, 1, 0, 1, 0, 1, 0]⟩ := by
  refine ⟨rfl, rfl, rfl, rfl, rfl⟩

/-- C2: every frame that reaches the filter dispatch on the convert path has
first been converted to RGB whenever its mode was not already RGB
(lines 186-194), so the selection always succeeds and always yields
DCTDecode / DeviceRGB / 8 bits with no `Decode` array — the Bilevel,
Grayscale, Palette and CMYK branches and the unsupported-mode error branch
are never taken on this path. -/
theorem c2_convert_forces_rgb (sourceMode : String) (palette : List Nat) :
    encodeFrameChoice sourceMode palette =
      Except.ok ⟨"DCTDecode", ColorSpace.name "DeviceRGB", "ImageC", 8, none⟩ := by
  unfold encodeFrameChoice
  rw [convertedMode_eq_rgb]
  rfl

/-- `leadsWith p l` holds when the character list `p` is an initial segment
of `l`. -/
def leadsWith : List Char → List Char → Bool
  | [], _ => true
  | _ :: _, [] => false
  | p :: ps, c :: cs => p = c && leadsWith ps cs

/-- `hasSub p l` holds when `p` occurs as a contiguous segment of `l`. -/
def hasSub (pat : List Char) : List Char → Bool
  | [] => pat.isEmpty
  | c :: cs => leadsWith pat (c :: cs) || hasSub pat cs

/-- Line 90 of `check_truncated`: the Python test
`'broken data stream' in str(err)`. -/
def brokenDataStream (msg : String) : Bool :=
  hasSub "broken data stream".toList msg.toList

/-- Lines 78-99, `PDFPlugin.check_truncated`: load the image with the current
process-wide `ImageFile.LOAD_TRUNCATED_IMAGES` flag.  On success return
`False` with the flag unchanged.  On an `OSError` whose message contains
`broken data stream`, set the flag, load once more (a failure of that second
load propagates, with the flag still set), and return `True` — the function
itself never clears the flag.  Any other `OSError` is re-raised with the flag
unchanged.  The first component is the result (`Except.error` = the raised
exception), the second is the flag after the call. -/
def check_truncated (flag : Bool) (load : Bool → LoadResult) :
    Except String Bool × Bool :=
  match load flag with
  | LoadResult.ok => (Except.ok false, flag)
  | LoadResult.osError e =>
      if brokenDataStream e then
        match load true with
        | LoadResult.ok => (Except.ok true, true)
        | LoadResult.osError e2 => (Except.error e2, true)
      else
        (Except.error e, flag)

/-- One output page's geometry, as emitted at lines 279-302 of `_save`:
the `MediaBox` array of the Page object and the two scaling entries of the
contents program `q <cmX> 0 0 <cmY> 0 0 cm /image Do Q`. -/
structure PageGeom where
  width : Nat
  height : Nat
  mediaBox : List ℚ
  cmX : ℚ
  cmY : ℚ
  deriving DecidableEq

/-- Lines 279-302 of `_save` for one frame of size `w × h` at resolution
`r`: `MediaBox=[0, 0, width * 72.0 / resolution, height * 72.0 / resolution]`
and contents stream `q %f 0 0 %f 0 0 cm /image Do Q` with the same two
values. -/
def encodePage (r : ℚ) (w h : Nat) : PageGeom where
  width := w
  height := h
  mediaBox := [0, 0, (w : ℚ) * 72 / r, (h : ℚ) * 72 / r]
  cmX := (w : ℚ) * 72 / r
  cmY := (h : ℚ) * 72 / r

/-- Lines 181-312 of `_save`, the body of the page-writing loop for one
source image: run `check_truncated` (an exception propagates, aborting the
save), convert to RGB, dispatch on the converted mode (the unreachable
`ValueError` branch propagates too), emit one page per frame, and finally —
only on the success path — clear the relaxed-decode flag if this image was
truncated (lines 310-312). -/
def processOneImage (r : ℚ) (flag : Bool) (im : SrcImage) :
    Except String (List PageGeom) × Bool :=
  match check_truncated flag im.load with
  | (Except.error e, flag1) => (Except.error e, flag1)
  | (Except.ok truncated, flag1) =>
      match modeDispatch (convertedMode im.mode) im.palette with
      | Except.error e => (Except.error e, flag1)
      | Except.ok _ =>
          let pages := (List.replicate im.nFrames (im.width, im.height)).map
            (fun wh => encodePage r wh.1 wh.2)
          (Except.ok pages, if truncated then false else flag1)

/-- The page-writing loop of `_save` over the whole image list: images are
processed in order, the relaxed-decode flag threads from one image to the
next, and the first exception aborts the remaining images. -/
def processImages (r : ℚ) (flag : Bool) : List SrcImage → Except String (List PageGeom) × Bool
  | [] => (Except.ok [], flag)
  | im :: rest =>
      match processOneImage r flag im with
      | (Except.error e, flag1) => (Except.error e, flag1)
      | (Except.ok pgs, flag1) =>
          match processImages r flag1 rest with
          | (Except.error e, flag2) => (Except.error e, flag2)
          | (Except.ok more, flag2) => (Except.ok (pgs ++ more), flag2)

/-- An image whose first load fails with Pillow's broken-data-stream message
and whose relaxed-mode retry succeeds. -/
def loadBrokenThenOk : Bool → LoadResult := fun relaxed =>
  if relaxed then LoadResult.ok
  else LoadResult.osError "image file is truncated (broken data stream when reading image file)"

/-- C3 counterexample: immediately after the single retry — that is, when
`check_truncated` returns — the relaxed-decode flag is still enabled (second
component `true`), even though the retry succeeded; the flag is only cleared
later, at lines 310-312, after the image's pages have been encoded.  The
claim states the mode is disabled again immediately after the retry
regardless of outcome, which would require the second component to be
`false` here. -/
theorem c3_flag_still_set_after_retry :
    check_truncated false loadBrokenThenOk = (Except.ok true, true) := by
  rfl

/-- C3 as amended: for an image whose load first fails with a
broken-data-stream `OSError` and whose relaxed-mode retry succeeds, the
relaxed-decode flag is enabled for the single retry and is disabled again by
the end of that image's processing (lines 310-312) — not immediately after
the retry — so within one sequential job it is not enabled while any later
image is decoded. -/
theorem c3_relaxed_mode_reset (r : ℚ) (flag : Bool) (im : SrcImage) (e : String)
    (h1 : im.load flag = LoadResult.osError e)
    (h2 : brokenDataStream e = true)
    (h3 : im.load true = LoadResult.ok) :
    (processOneImage r flag im).2 = false := by
  simp [processOneImage, check_truncated, h1, h2, h3, convertedMode_eq_rgb, modeDispatch]

/-- Witness for `c3_relaxed_mode_reset` at a concrete truncated image. -/
theorem c3_relaxed_mode_reset_witness :
    (processOneImage 72 false ⟨"RGB", [], 1, 800, 1200, loadBrokenThenOk⟩).2 = false :=
  c3_relaxed_mode_reset 72 false ⟨"RGB", [], 1, 800, 1200, loadBrokenThenOk⟩
    "image file is truncated (broken data stream when reading image file)"
    (by rfl) (by decide) (by rfl)

/-- C8: an `OSError` raised by the load whose message does not contain
`broken data stream` is re-raised by `check_truncated` (line 94) with the
relaxed flag untouched; no retry happens, the exception propagates out of the
page loop, the failing image's pages and all later images' pages are never
written, and the job aborts with that error — the page is not silently
skipped. -/
theorem c8_other_error_fatal (r : ℚ) (flag : Bool) (im : SrcImage)
    (rest : List SrcImage) (e : String)
    (h1 : im.load flag = LoadResult.osError e)
    (h2 : brokenDataStream e = false) :
    check_truncated flag im.load = (Except.error e, flag) ∧
    processImages r flag (im :: rest) = (Except.error e, flag) := by
  have hc : check_truncated flag im.load = (Except.error e, flag) := by
    simp [check_truncated, h1, h2]
  refine ⟨hc, ?_⟩
  simp [processImages, processOneImage, hc]

/-- Witness for `c8_other_error_fatal` at a concrete undecodable image. -/
theorem c8_other_error_fatal_witness :
    processImages 72 false (⟨"RGB", [], 1, 100, 100,
        fun _ => LoadResult.osError "bad huffman code"⟩ :: []) =
      (Except.error "bad huffman code", false) :=
  (c8_other_error_fatal 72 false ⟨"RGB", [], 1, 100, 100,
      fun _ => LoadResult.osError "bad huffman code"⟩ [] "bad huffman code"
    (by rfl) (by decide)).2

/-- A single-frame RGB image of size `w × h` that loads without error. -/
def rgbImage (w h : Nat) : SrcImage :=
  ⟨"RGB", [], 1, w, h, fun _ => LoadResult.ok⟩

/-- C6: each emitted page's `MediaBox` is
`[0, 0, width * 72 / resolution, height * 72 / resolution]` and the `cm`
scaling entries of its fixed contents program are exactly that MediaBox
width and height; in particular three single-frame 800×1200 RGB images at
96 DPI produce exactly 3 pages, each with `MediaBox [0, 0, 600, 900]`. -/
theorem c6_page_geometry :
    (∀ (r : ℚ) (w h : Nat),
      (encodePage r w h).mediaBox = [0, 0, (encodePage r w h).cmX, (encodePage r w h).cmY] ∧
      (encodePage r w h).cmX = (w : ℚ) * 72 / r ∧
      (encodePage r w h).cmY = (h : ℚ) * 72 / r) ∧
    (processImages 96 false (List.replicate 3 (rgbImage 800 1200))).1 =
      Except.ok (List.replicate 3 (encodePage 96 800 1200)) ∧
    (List.replicate 3 (encodePage 96 800 1200)).length = 3 ∧
    (encodePage 96 800 1200).mediaBox = [0, 0, 600, 900] := by
  refine ⟨fun r w h => ⟨rfl, rfl, rfl⟩, by rfl, by rfl, ?_⟩
  show [(0 : ℚ), 0, (800 : ℚ) * 72 / 96, (1200 : ℚ) * 72 / 96] = [0, 0, 600, 900]
  norm_num

/-- The object-id bookkeeping of `_save`, lines 148-171: the allocator
counter of `existing_pdf.next_object_id`, the three per-frame reference
lists `image_refs` / `page_refs` / `contents_refs`, the page tree
`existing_pdf.pages`, and the chronological list of every id handed out. -/
structure AllocState where
  counter : Nat
  imageRefs : List Nat
  pageRefs : List Nat
  contentsRefs : List Nat
  pages : List Nat
  allocOrder : List Nat
  deriving DecidableEq

/-- Lines 163-167, the body of `for i in range(im_numberOfPages)`: three
fresh ids are drawn in the order image, page, contents, and the page id is
appended to `existing_pdf.pages`. -/
def allocFrame (st : AllocState) : AllocState where
  counter := st.counter + 3
  imageRefs := st.imageRefs ++ [st.counter]
  pageRefs := st.pageRefs ++ [st.counter + 1]
  contentsRefs := st.contentsRefs ++ [st.counter + 2]
  pages := st.pages ++ [st.counter + 1]
  allocOrder := st.allocOrder ++ [st.counter, st.counter + 1, st.counter + 2]

/-- Lines 152-167 for one source image: the frame loop runs
`im_numberOfPages = n_frames` times. -/
def allocImage (st : AllocState) (im : SrcImage) : AllocState :=
  allocFrame^[im.nFrames] st

/-- The whole pre-allocation loop of lines 152-171, starting from the
allocator state the parser is in after the header (first fresh id `s`). -/
def allocAll (s : Nat) (ims : List SrcImage) : AllocState :=
  List.foldl allocImage ⟨s, [], [], [], [], []⟩ ims

/-- `numberOfPages` as summed at line 162: one page per frame of every
source image. -/
def totalFrames (ims : List SrcImage) : Nat :=
  (ims.map SrcImage.nFrames).sum

theorem allocFrame_iter_counter (st : AllocState) (n : Nat) :
    (allocFrame^[n] st).counter = st.counter + 3 * n := by
  induction n with
  | zero => simp
  | succ n ih =>
      rw [Function.iterate_succ_apply']
      show (allocFrame^[n] st).counter + 3 = _
      rw [ih]
      ring

theorem allocFrame_iter_allocOrder (st : AllocState) (n : Nat) :
    (allocFrame^[n] st).allocOrder =
      st.allocOrder ++ (List.range (3 * n)).map (fun k => st.counter + k) := by
  induction n with
  | zero => simp
  | succ n ih =>
      rw [Function.iterate_succ_apply']
      show (allocFrame^[n] st).allocOrder ++
          [(allocFrame^[n] st).counter, (allocFrame^[n] st).counter + 1,
            (allocFrame^[n] st).counter + 2] = _
      rw [ih, allocFrame_iter_counter st n,
        show 3 * (n + 1) = 3 * n + 1 + 1 + 1 by ring,
        List.range_succ, List.range_succ, List.range_succ]
      simp [Nat.add_assoc]

theorem allocFrame_iter_pages (st : AllocState) (n : Nat) :
    (allocFrame^[n] st).pages =
      st.pages ++ (List.range n).map (fun k => st.counter + 3 * k + 1) := by
  induction n with
  | zero => simp
  | succ n ih =>
      rw [Function.iterate_succ_apply']
      show (allocFrame^[n] st).pages ++ [(allocFrame^[n] st).counter + 1] = _
      rw [ih, allocFrame_iter_counter st n, List.range_succ]
      simp

theorem allocFrame_iter_pageRefs (st : AllocState) (n : Nat) :
    (allocFrame^[n] st).pageRefs =
      st.pageRefs ++ (List.range n).map (fun k => st.counter + 3 * k + 1) := by
  induction n with
  | zero => simp
  | succ n ih =>
      rw [Function.iterate_succ_apply']
      show (allocFrame^[n] st).pageRefs ++ [(allocFrame^[n] st).counter + 1] = _
      rw [ih, allocFrame_iter_counter st n, List.range_succ]
      simp

theorem allocAll_foldl (ims : List SrcImage) : ∀ st : AllocState,
    (List.foldl allocImage st ims).counter = st.counter + 3 * totalFrames ims ∧
    (List.foldl allocImage st ims).allocOrder =
      st.allocOrder ++ (List.range (3 * totalFrames ims)).map (fun k => st.counter + k) ∧
    (List.foldl allocImage st ims).pages =
      st.pages ++ (List.range (totalFrames ims)).map (fun k => st.counter + 3 * k + 1) ∧
    (List.foldl allocImage st ims).pageRefs =
      st.pageRefs ++ (List.range (totalFrames ims)).map (fun k => st.counter + 3 * k + 1) := by
  induction ims with
  | nil => intro st; simp [totalFrames]
  | cons im rest ih =>
      intro st
      obtain ⟨h1, h2, h3, h4⟩ := ih (allocImage st im)
      have hT : totalFrames (im :: rest) = im.nFrames + totalFrames rest := by
        simp [totalFrames]
      have hc : (allocImage st im).counter = st.counter + 3 * im.nFrames :=
        allocFrame_iter_counter st im.nFrames
      refine ⟨?_, ?_, ?_, ?_⟩
      · rw [List.foldl_cons, h1, hc, hT]; ring
      · rw [List.foldl_cons, h2, hc, hT,
          show (allocImage st im).allocOrder =
            st.allocOrder ++ (List.range (3 * im.nFrames)).map (fun k => st.counter + k) from
            allocFrame_iter_allocOrder st im.nFrames,
          show 3 * (im.nFrames + totalFrames rest) =
            3 * im.nFrames + 3 * totalFrames rest by ring,
          List.range_add]
        simp [List.map_map, Function.comp, Nat.add_assoc]
      · rw [List.foldl_cons, h3, hc, hT,
          show (allocImage st im).pages =
            st.pages ++ (List.range im.nFrames).map (fun k => st.counter + 3 * k + 1) from
            allocFrame_iter_pages st im.nFrames,
          List.range_add, List.append_assoc, List.map_append, List.map_map]
        congr 1
        congr 1
        simp only [List.map_inj_left, Function.comp_apply]
        intro a _
        ring
      · rw [List.foldl_cons, h4, hc, hT,
          show (allocImage st im).pageRefs =
            st.pageRefs ++ (List.range im.nFrames).map (fun k => st.counter + 3 * k + 1) from
            allocFrame_iter_pageRefs st im.nFrames,
          List.range_add, List.append_assoc, List.map_append, List.map_map]
        congr 1
        congr 1
        simp only [List.map_inj_left, Function.comp_apply]
        intro a _
        ring

/-- The byte-emitting steps of `_save`, in the order the source performs
them: header and comment (lines 137-138), the id allocations of lines
152-171, `write_catalog` at line 175, the per-page object writes of lines
262-302, and `write_xref_and_trailer` at line 316. -/
inductive SaveEvent
  | header
  | comment
  | allocObj (id : Nat)
  | writeCatalog (pages : List Nat)
  | writeImageObj (id : Nat)
  | writePageObj (id : Nat)
  | writeContentsObj (id : Nat)
  | xrefTrailer
  deriving DecidableEq

/-- `true` exactly on id-allocation events. -/
def isAllocEvent : SaveEvent → Bool
  | SaveEvent.allocObj _ => true
  | _ => false

/-- The page-writing loop of lines 180-305: for page number `k` the image
XObject, the Page object and the contents stream are written under the ids
pre-allocated for that page. -/
def writePhase (st : AllocState) : List SaveEvent :=
  ((List.range st.pages.length).map fun k =>
    [SaveEvent.writeImageObj (st.imageRefs.getD k 0),
     SaveEvent.writePageObj (st.pageRefs.getD k 0),
     SaveEvent.writeContentsObj (st.contentsRefs.getD k 0)]).flatten

/-- The event trace of one `_save` call: header, comment, all id
allocations, the catalog (which embeds the page tree), the page objects,
then the xref and trailer. -/
def saveEvents (s : Nat) (ims : List SrcImage) : List SaveEvent :=
  [SaveEvent.header, SaveEvent.comment]
    ++ (allocAll s ims).allocOrder.map SaveEvent.allocObj
    ++ [SaveEvent.writeCatalog (allocAll s ims).pages]
    ++ writePhase (allocAll s ims)
    ++ [SaveEvent.xrefTrailer]

/-- C7: starting from fresh id `s`, the allocation loop hands out ids
`s, s+1, s+2, …` — three per source frame, in input order, each id strictly
greater than every previously allocated id; the page tree
`existing_pdf.pages` receives exactly the page ids `s + 3k + 1` for
`k = 0, …, totalFrames - 1`, i.e. the pages appear in the page tree in the
order their source frames were supplied (one page per frame of a
multi-frame image, in frame order); and every allocation happens in the
trace before the catalog/page tree is written, after which no id is
allocated. -/
theorem c7_id_allocation (s : Nat) (ims : List SrcImage) :
    (allocAll s ims).allocOrder =
      (List.range (3 * totalFrames ims)).map (fun k => s + k) ∧
    (allocAll s ims).allocOrder.Pairwise (· < ·) ∧
    (allocAll s ims).pages =
      (List.range (totalFrames ims)).map (fun k => s + 3 * k + 1) ∧
    (allocAll s ims).pages = (allocAll s ims).pageRefs ∧
    saveEvents s ims =
      [SaveEvent.header, SaveEvent.comment]
        ++ (allocAll s ims).allocOrder.map SaveEvent.allocObj
        ++ [SaveEvent.writeCatalog (allocAll s ims).pages]
        ++ writePhase (allocAll s ims)
        ++ [SaveEvent.xrefTrailer] ∧
    (writePhase (allocAll s ims)).all (fun e => !(isAllocEvent e)) = true := by
  obtain ⟨h1, h2, h3, h4⟩ := allocAll_foldl ims ⟨s, [], [], [], [], []⟩
  refine ⟨by simpa [allocAll] using h2, ?_, by simpa [allocAll] using h3,
    by rw [allocAll, h3, h4], rfl, ?_⟩
  · rw [show (allocAll s ims).allocOrder =
        (List.range (3 * totalFrames ims)).map (fun k => s + k) by
      simpa [allocAll] using h2]
    exact (List.pairwise_lt_range _).map _ (fun a b hab => by omega)
  · rw [List.all_eq_true]
    intro e he
    rcases List.mem_flatten.mp he with ⟨l, hl, hel⟩
    rcases List.mem_map.mp hl with ⟨k, _, rfl⟩
    simp only [List.mem_cons, List.not_mem_nil, or_false] at hel
    rcases hel with rfl | rfl | rfl <;> rfl

/-- One unit of pipeline work: the sanitized name from which the target PDF
path is derived, and whether that target already exists when the loop
reaches it. -/
structure TargetJob where
  name : String
  targetExists : Bool
  deriving DecidableEq

/-- The observable side effects of the pipeline loops `PDF.main`,
`PDFSingle.main` and `PDFVolume.main`, in program order. -/
inductive PipeEvent
  | deleteFile (name : String)
  | logSkip (name : String)
  | createDir (name : String)
  | submitJob (name : String)
  | rmtreeDir (name : String)
  | shutdownWorker
  deriving DecidableEq

/-- Lines 367-389, the body of `PDF.main` for one chapter: if the target
exists it is deleted when `self.replace`, otherwise the skip is logged and
the loop `continue`s; then the staging directory is created, the job is
submitted, and `shutil.rmtree(chapter_path, ignore_errors=True)` follows
immediately. -/
def PDF_chapterBody (replace : Bool) (c : TargetJob) : List PipeEvent :=
  if c.targetExists then
    if replace then
      [PipeEvent.deleteFile c.name, PipeEvent.createDir c.name,
       PipeEvent.submitJob c.name, PipeEvent.rmtreeDir c.name]
    else
      [PipeEvent.logSkip c.name]
  else
    [PipeEvent.createDir c.name, PipeEvent.submitJob c.name, PipeEvent.rmtreeDir c.name]

/-- Lines 362-392, `PDF.main`: run the chapter body for every chapter in
order (a skip is a `continue`), then shut the worker down. -/
def PDF_main (replace : Bool) (chaps : List TargetJob) : List PipeEvent :=
  (chaps.map (PDF_chapterBody replace)).flatten ++ [PipeEvent.shutdownWorker]

/-- Lines 395-442, `PDFSingle.main`: at most one merged job; `None` from the
cache means shutdown and return; an existing target with `replace=False` is
logged and the method `return`s (also skipping `worker.shutdown()`). -/
def PDFSingle_main (replace : Bool) (job : Option TargetJob) : List PipeEvent :=
  match job with
  | none => [PipeEvent.shutdownWorker]
  | some v =>
      if v.targetExists then
        if replace then
          [PipeEvent.deleteFile v.name, PipeEvent.createDir v.name,
           PipeEvent.submitJob v.name, PipeEvent.rmtreeDir v.name,
           PipeEvent.shutdownWorker]
        else
          [PipeEvent.logSkip v.name]
      else
        [PipeEvent.createDir v.name, PipeEvent.submitJob v.name,
         PipeEvent.rmtreeDir v.name, PipeEvent.shutdownWorker]

/-- Lines 445-511, `PDFVolume.main`: the per-volume loop.  When a volume's
target exists and `replace` is false, line 484 executes `return` — not
`continue` — so the remaining volumes and the final `worker.shutdown()` are
abandoned. -/
def PDFVolume_main (replace : Bool) : List TargetJob → List PipeEvent
  | [] => [PipeEvent.shutdownWorker]
  | v :: rest =>
      if v.targetExists then
        if replace then
          [PipeEvent.deleteFile v.name, PipeEvent.createDir v.name,
           PipeEvent.submitJob v.name, PipeEvent.rmtreeDir v.name]
            ++ PDFVolume_main replace rest
        else
          [PipeEvent.logSkip v.name]
      else
        [PipeEvent.createDir v.name, PipeEvent.submitJob v.name,
         PipeEvent.rmtreeDir v.name] ++ PDFVolume_main replace rest

/-- C4: evaluation of the pipelines at the failing input.  With
`replace = false` and a first target that already exists, the per-chapter
pipeline (`continue` at line 378) logs the skip and still processes the
second chapter, but the per-volume pipeline (`return` at line 484) stops
after the logged skip: the second volume is never created, submitted or
cleaned up and the worker is never shut down — contradicting the claim that
in every grouping mode the pipeline proceeds to all remaining jobs. -/
theorem c4_volume_return_stops_pipeline :
    PDF_main false [⟨"Ch. 1", true⟩, ⟨"Ch. 2", false⟩] =
      [PipeEvent.logSkip "Ch. 1", PipeEvent.createDir "Ch. 2",
       PipeEvent.submitJob "Ch. 2", PipeEvent.rmtreeDir "Ch. 2",
       PipeEvent.shutdownWorker] ∧
    PDFVolume_main false [⟨"Vol. 1", true⟩, ⟨"Vol. 2", false⟩] =
      [PipeEvent.logSkip "Vol. 1"] := by
  exact ⟨rfl, rfl⟩

/-- Lines 389, 439, 508: `shutil.rmtree(path, ignore_errors=True)`.  With
`ignore_errors=True` the call never raises and reports nothing: the first
component is the log messages it emits (always none), the second the
outcome (always success), whether or not the underlying deletion fails. -/
def rmtreeIgnoreErrors (_deletionFails : Bool) : List String × Except String Unit :=
  ([], Except.ok ())

/-- C5 counterexample: when the deletion of a staging directory fails, no
log message is produced — `rmtree` is called with `ignore_errors=True`, so
the failure is silently swallowed, contradicting the claim that a failure to
delete the directory is logged. -/
theorem c5_failed_delete_not_logged :
    rmtreeIgnoreErrors true = ([], Except.ok ()) := by
  rfl

/-- C5 as amended: for every job that is actually submitted (the target
missing, or `replace` set), the pipeline issues the staging-directory
deletion immediately after submitting the job — ordering relative to the
job's terminal state is delegated to the queue worker's `submit`, which is
outside this file's sources — and a failure of the deletion is silently
ignored: never fatal, and never logged. -/
theorem c5_cleanup_after_submit (deletionFails replace : Bool) (c : TargetJob)
    (h : c.targetExists = false ∨ replace = true) :
    (rmtreeIgnoreErrors deletionFails).2 = Except.ok () ∧
    (rmtreeIgnoreErrors deletionFails).1 = [] ∧
    PDF_chapterBody replace c =
      (if c.targetExists then [PipeEvent.deleteFile c.name] else [])
        ++ [PipeEvent.createDir c.name, PipeEvent.submitJob c.name,
            PipeEvent.rmtreeDir c.name] := by
  refine ⟨rfl, rfl, ?_⟩
  unfold PDF_chapterBody
  rcases h with h | h
  · rw [h]; simp
  · rw [h]; by_cases hx : c.targetExists <;> simp [hx]

/-- Witness for `c5_cleanup_after_submit`: a fresh target with
`replace = true` whose staging-directory deletion fails. -/
theorem c5_cleanup_after_submit_witness :
    (rmtreeIgnoreErrors true).2 = Except.ok () ∧
    (rmtreeIgnoreErrors true).1 = [] ∧
    PDF_chapterBody true ⟨"Ch. 1", false⟩ =
      (if (false : Bool) then [PipeEvent.deleteFile "Ch. 1"] else [])
        ++ [PipeEvent.createDir "Ch. 1", PipeEvent.submitJob "Ch. 1",
            PipeEvent.rmtreeDir "Ch. 1"] :=
  c5_cleanup_after_submit true true ⟨"Ch. 1", false⟩ (Or.inl rfl)

/-- Lines 41-52 and 334-338: `pillow_ready` is false when the `PIL` import
fails, and `PDF.__init__` (inherited by `PDFSingle` and `PDFVolume`) raises
`PillowNotInstalled("pillow is not installed")` before calling the base
constructor. -/
def PDF_init (pillowReady : Bool) : Except String Unit :=
  if pillowReady then Except.ok () else Except.error "pillow is not installed"

/-- A format run: the constructor runs first; only if it succeeds does
`main` run and emit pipeline events (create jobs, submit them, …). -/
def runPDFFormat (pillowReady replace : Bool) (chaps : List TargetJob) :
    Except String (List PipeEvent) :=
  match PDF_init pillowReady with
  | Except.error e => Except.error e
  | Except.ok _ => Except.ok (PDF_main replace chaps)

/-- `PDFSingle` run under the same inherited constructor. -/
def runPDFSingleFormat (pillowReady replace : Bool) (job : Option TargetJob) :
    Except String (List PipeEvent) :=
  match PDF_init pillowReady with
  | Except.error e => Except.error e
  | Except.ok _ => Except.ok (PDFSingle_main replace job)

/-- `PDFVolume` run under the same inherited constructor. -/
def runPDFVolumeFormat (pillowReady replace : Bool) (vols : List TargetJob) :
    Except String (List PipeEvent) :=
  match PDF_init pillowReady with
  | Except.error e => Except.error e
  | Except.ok _ => Except.ok (PDFVolume_main replace vols)

/-- C9: when Pillow failed to import, constructing any of the three PDF
output formats raises `PillowNotInstalled` with the message
`pillow is not installed`, and no pipeline event — in particular no job
creation or submission — ever happens. -/
theorem c9_pillow_missing_fails_fast (replace : Bool) (chaps vols : List TargetJob)
    (job : Option TargetJob) :
    runPDFFormat false replace chaps = Except.error "pillow is not installed" ∧
    runPDFSingleFormat false replace job = Except.error "pillow is not installed" ∧
    runPDFVolumeFormat false replace vols = Except.error "pillow is not installed" :=
  ⟨rfl, rfl, rfl⟩

/-- The observable steps of `PDF.convert`, lines 340-360, in program
order. -/
inductive ConvEvent
  | mkPlugin
  | openImage (path : String)
  | checkTruncated
  | saveTarget (target : String)
  deriving DecidableEq

/-- Lines 340-360, `PDF.convert`: `PDFPlugin(imgs)` is constructed (progress
bar and handler registration — it opens no image); the paths are wrapped in
lazy `_PageRef`s without opening anything; then `images.pop(0)` runs —
`list.pop` on an empty list raises `IndexError: pop from empty list` — and
only after that is the first image opened, checked, and the target written
by `im.save`. -/
def convert (imgs : List String) (target : String) :
    List ConvEvent × Except String Unit :=
  match imgs with
  | [] => ([ConvEvent.mkPlugin], Except.error "pop from empty list")
  | im0 :: _ =>
      ([ConvEvent.mkPlugin, ConvEvent.openImage im0, ConvEvent.checkTruncated,
        ConvEvent.saveTarget target], Except.ok ())

/-- `true` when the event trace opens some image or writes some target. -/
def opensOrWrites (events : List ConvEvent) : Bool :=
  events.any fun e =>
    match e with
    | ConvEvent.openImage _ => true
    | ConvEvent.saveTarget _ => true
    | _ => false

/-- C10: calling `convert` with an empty image list raises the
`pop from empty list` error, and the steps performed before the error open
no image and write no target file — an empty job never produces an output
file. -/
theorem c10_empty_convert_fails_early (target : String) :
    (convert [] target).2 = Except.error "pop from empty list" ∧
    opensOrWrites (convert [] target).1 = false :=
  ⟨rfl, rfl⟩

end PdfFmt
